import Mathlib

/-!
Verification of the Fyers proxy server (src/app.py, src/fyers_auth.py,
src/main.py) against its natural-language specification.

The session manager of `src/app.py` is a pair of module-level globals
`ACCESS_TOKEN` (plus `REFRESH_TOKEN`) and `fyers_instance`; we embed this
global state as the structure `SessionState` and each route handler as a
state-passing function.  External collaborators (the Fyers SDK network
calls, the token endpoint) are passed in as explicit outcome parameters:
an `Except String Json` stands for "the downstream call either raised an
exception with the given message or returned the given JSON value".
Python truthiness on strings and JSON values is embedded explicitly
(`otruthy`, `Json.truthy`).  Numeric JSON values are embedded as `Rat`
(the code only compares them, never does float arithmetic).
-/

namespace FyersProxy

/-- Minimal JSON value model for request/response bodies. -/
inductive Json where
  | null
  | bool (b : Bool)
  | num (q : Rat)
  | str (s : String)
  | arr (elems : List Json)
  | obj (fields : List (String × Json))
deriving Repr

/-- Python truthiness of a JSON value (`if not data: ...`).  `None`, `False`,
`0`, `""`, `[]` and `{}` are falsy. -/
def Json.truthy : Json → Bool
  | .null => false
  | .bool b => b
  | .num q => q != 0
  | .str s => !s.isEmpty
  | .arr xs => !xs.isEmpty
  | .obj fs => !fs.isEmpty

/-- Field lookup in a JSON object (`d[k]` / `d.get(k)` on a dict). -/
def Json.get? (j : Json) (k : String) : Option Json :=
  match j with
  | .obj fs => fs.lookup k
  | _ => none

/-- Python truthiness of an optional string (`if not token: ...`):
`None` and the empty string are falsy. -/
def otruthy : Option String → Bool
  | none => false
  | some s => !s.isEmpty

/-- The `fyersModel.FyersModel` handle, identified by the access token it
was constructed from (construction is deterministic in the token;
`client_id`/`log_path` are fixed configuration). -/
structure Client where
  token : String
deriving DecidableEq, Repr

/-- The module-level session state of `src/app.py`: the globals
`ACCESS_TOKEN`, `REFRESH_TOKEN` and `fyers_instance`. -/
structure SessionState where
  accessToken : Option String
  refreshToken : Option String
  client : Option Client
deriving DecidableEq, Repr

/-- Process start: all three globals are `None` (src/app.py lines 22-24). -/
def initialState : SessionState :=
  { accessToken := none, refreshToken := none, client := none }

/-- Embedding of `initialize_fyers_model(token)` (src/app.py lines 27-34): if `token` is
truthy, rebind the global `fyers_instance` to a fresh `FyersModel` built from
it; otherwise leave the global untouched (only a message is printed). -/
def init_fyers_model (st : SessionState) (token : Option String) : SessionState :=
  if otruthy token then { st with client := token.map Client.mk } else st

/-- Embedding of `_get_fyers_instance()` (src/app.py lines 36-42): lazily construct the
client when the global `fyers_instance` is unset but `ACCESS_TOKEN` is truthy;
return the (possibly updated) instance together with the updated globals. -/
def get_fyers_instance (st : SessionState) : Option Client × SessionState :=
  let st' :=
    match st.client, otruthy st.accessToken with
    | none, true => init_fyers_model st st.accessToken
    | _, _ => st
  (st'.client, st')

/-- The `except`-branch session teardown used throughout `src/app.py`
(`ACCESS_TOKEN = None; fyers_instance = None`), e.g. lines 110-112,
163-164, 509-510. -/
def invalidate (st : SessionState) : SessionState :=
  { st with accessToken := none, client := none }

/-- Outcome of `session_builder.generate_token()` (the external token
endpoint): either it raised an exception with message `msg`, or it returned a
response dict whose `access_token` / `refresh_token` fields are as given
(`none` = field absent). -/
inductive TokenResult where
  | raise (msg : String)
  | resp (access_token : Option String) (refresh_token : Option String)
deriving DecidableEq, Repr

/-- Result of one Flask handler: HTTP status, JSON body (`Json.null` for a
redirect), the session globals after the call, and whether the downstream
broker/token call was actually made. -/
structure HandlerResult where
  status : Nat
  body : Json
  state : SessionState
  downstreamCalled : Bool

/-- A single quote character, for embedding Python exception texts. -/
def sq : String := String.singleton (Char.ofNat 39)

/-- The text `str(KeyError('access_token'))` as printed into the 500 body when the
token-endpoint response lacks the `access_token` key. -/
def keyErrorAccessToken : String := sq ++ "access_token" ++ sq

/-- Embedding of `fyers_auth_callback()` (src/app.py lines 64-96).  `auth_code` is the
`auth_code` query parameter; `gen` is the outcome of `generate_token()`.
On success the globals `ACCESS_TOKEN`/`REFRESH_TOKEN` are overwritten and
`initialize_fyers_model` rebuilds the client; any exception in the `try`
block (including the `KeyError` from a missing `access_token` field) leaves
the globals untouched and returns a 500 JSON error. -/
def fyers_auth_callback (st : SessionState) (auth_code : Option String)
    (gen : TokenResult) : HandlerResult :=
  if !otruthy auth_code then
    ⟨400, .obj [("error", .str "Authorization code not found in callback.")], st, false⟩
  else
    match gen with
    | .raise e =>
        ⟨500, .obj [("error", .str ("Failed to generate access token: " ++ e))], st, true⟩
    | .resp none _ =>
        ⟨500, .obj [("error", .str ("Failed to generate access token: " ++ keyErrorAccessToken))],
          st, true⟩
    | .resp (some tok) rt =>
        let st1 : SessionState := { st with accessToken := some tok, refreshToken := rt }
        let st2 := init_fyers_model st1 (some tok)
        ⟨302, .null, st2, true⟩

/-- The 401 body shared by every proxy endpoint when no client is live. -/
def notInitializedBody : Json :=
  .obj [("error", .str "Fyers API not initialized. Please authenticate first.")]

/-- Embedding of `get_profile()` (src/app.py lines 100-114): 401 if no client; otherwise
relay the downstream JSON, or on any exception clear the session and
return 401. -/
def get_profile (st : SessionState) (ds : Except String Json) : HandlerResult :=
  let (api, st1) := get_fyers_instance st
  match api with
  | none => ⟨401, notInitializedBody, st1, false⟩
  | some _ =>
      match ds with
      | .ok j => ⟨200, j, st1, true⟩
      | .error e =>
          ⟨401, .obj [("error",
              .str ("Failed to fetch profile (token might be invalid/expired): " ++ e))],
            invalidate st1, true⟩

/-- Python substring containment `pat in s` for strings (the empty pattern is
contained in every string). -/
def strContains (s pat : String) : Bool :=
  if pat.isEmpty then true else (s.splitOn pat).length ≥ 2

/-- Python `k in data` for a string key `k`: key membership for a dict,
element membership for a list, substring test for a string, and a
`TypeError` (modelled as `.error`) for the remaining JSON values. -/
def pyIn (k : String) : Json → Except String Bool
  | .obj fs => .ok (fs.any (fun p => p.1 == k))
  | .arr xs => .ok (xs.any (fun x => match x with | .str s => s == k | _ => false))
  | .str s => .ok (strContains s k)
  | _ => .error "argument of type is not iterable"

/-- Embedding of `all(k in data for k in ks)` with Python short-circuiting; a `TypeError`
raised by any membership test propagates. -/
def allKeysIn (ks : List String) (j : Json) : Except String Bool :=
  match ks with
  | [] => .ok true
  | k :: ks' => do
      let b ← pyIn k j
      if b then allKeysIn ks' j else .ok false

/-- The required-field list of `/api/fyers/history` (src/app.py line 157). -/
def HISTORY_KEYS : List String := ["symbol", "resolution", "range_from", "range_to"]

/-- The validation step of `get_history` (src/app.py lines 156-158):
`not data or not all(k in data for k in [...])`.  `.ok true` means the body
passed validation, `.ok false` means the 400 branch is taken, `.error`
means a `TypeError` escaped into the `except` branch. -/
def historyValidate (body : Option Json) : Except String Bool :=
  match body with
  | none => .ok false
  | some j =>
      if !j.truthy then .ok false
      else allKeysIn HISTORY_KEYS j

/-- Embedding of `get_history()` (src/app.py lines 148-166): 401 if no client; 400 if a
required field is missing; otherwise relay the downstream candle JSON, and
on any exception in the `try` block clear the session and return 401. -/
def get_history (st : SessionState) (body : Option Json) (ds : Except String Json) :
    HandlerResult :=
  let (api, st1) := get_fyers_instance st
  match api with
  | none => ⟨401, notInitializedBody, st1, false⟩
  | some _ =>
      match historyValidate body with
      | .error e =>
          ⟨401, .obj [("error",
              .str ("Failed to fetch history (token might be invalid/expired): " ++ e))],
            invalidate st1, false⟩
      | .ok false =>
          ⟨400, .obj [("error",
              .str "Missing required parameters for history API. Need symbol, resolution, range_from, range_to.")],
            st1, false⟩
      | .ok true =>
          match ds with
          | .ok j => ⟨200, j, st1, true⟩
          | .error e =>
              ⟨401, .obj [("error",
                  .str ("Failed to fetch history (token might be invalid/expired): " ++ e))],
                invalidate st1, true⟩

/-- Embedding of `place_basket_orders()` (src/app.py lines 341-359): 401 if no client;
400 if the body is not a non-empty JSON array; otherwise relay the
downstream JSON, and on any exception clear the session and return 401. -/
def place_basket_orders (st : SessionState) (body : Option Json)
    (ds : Except String Json) : HandlerResult :=
  let (api, st1) := get_fyers_instance st
  match api with
  | none => ⟨401, notInitializedBody, st1, false⟩
  | some _ =>
      match body with
      | some (.arr (_ :: _)) =>
          match ds with
          | .ok j => ⟨200, j, st1, true⟩
          | .error e =>
              ⟨401, .obj [("error",
                  .str ("Failed to place basket orders (token might be invalid/expired): " ++ e))],
                invalidate st1, true⟩
      | _ =>
          ⟨400, .obj [("error",
              .str "Request body must be a non-empty list of order objects.")], st1, false⟩

/-- Embedding of `modify_basket_orders()` (src/app.py lines 477-495): same shape as
`place_basket_orders`, with its own error messages. -/
def modify_basket_orders (st : SessionState) (body : Option Json)
    (ds : Except String Json) : HandlerResult :=
  let (api, st1) := get_fyers_instance st
  match api with
  | none => ⟨401, notInitializedBody, st1, false⟩
  | some _ =>
      match body with
      | some (.arr (_ :: _)) =>
          match ds with
          | .ok j => ⟨200, j, st1, true⟩
          | .error e =>
              ⟨401, .obj [("error",
                  .str ("Failed to modify basket orders (token might be invalid/expired): " ++ e))],
                invalidate st1, true⟩
      | _ =>
          ⟨400, .obj [("error",
              .str "Request body must be a non-empty list of order modification objects.")], st1, false⟩

/-- Embedding of `logout_fyers()` (src/app.py lines 497-517): if no client, clear the
globals and report "already logged out"; otherwise call the downstream
logout and clear the globals whether it succeeds (200, relayed body) or
raises (500). -/
def logout_fyers (st : SessionState) (ds : Except String Json) : HandlerResult :=
  let (api, st1) := get_fyers_instance st
  match api with
  | none =>
      ⟨200, .obj [("s", .str "ok"), ("code", .num 200),
          ("message", .str "Already logged out or no active session.")],
        invalidate st1, false⟩
  | some _ =>
      match ds with
      | .ok j => ⟨200, j, invalidate st1, true⟩
      | .error e =>
          ⟨500, .obj [("error", .str ("Failed to logout: " ++ e))], invalidate st1, true⟩

/-! ### `src/fyers_auth.py`: the `FyersAuthenticator` class -/

/-- The mutable fields of a `FyersAuthenticator` object
(src/fyers_auth.py lines 7-12).  The three configuration strings are fixed
at construction and never read by the operations we verify, so they are
omitted; `fyers_model` and `access_token` start as `None`. -/
structure FyersAuthenticator where
  fyers_model : Option Client
  access_token : Option String
deriving DecidableEq, Repr

/-- Embedding of `FyersAuthenticator.generate_access_token(auth_code)`
(src/fyers_auth.py lines 25-46).  `gen` is the outcome of
`session.generate_token()`; an exception propagates uncaught (`.error`
carries the message together with the — unchanged — object state).  When the
response is truthy and carries a truthy `access_token`, it is stored on the
object and returned; otherwise `None` is returned and the object is left
untouched.  `fyers_model` is never touched here. -/
def generate_access_token (a : FyersAuthenticator) (gen : TokenResult) :
    Except (String × FyersAuthenticator) (Option String × FyersAuthenticator) :=
  match gen with
  | .raise e => .error (e, a)
  | .resp tokOpt _ =>
      if otruthy tokOpt then
        .ok (tokOpt, { a with access_token := tokOpt })
      else
        .ok (none, a)

/-- Embedding of `FyersAuthenticator.get_fyers_model()` (src/fyers_auth.py lines 48-59):
raises when `access_token` is falsy; otherwise constructs the `FyersModel`
once and caches it in `fyers_model`, returning the cached object on every
later call (even if `access_token` has changed since). -/
def get_fyers_model (a : FyersAuthenticator) :
    Except String (Client × FyersAuthenticator) :=
  if !otruthy a.access_token then
    .error "Access token not generated. Please run authentication first."
  else
    match a.fyers_model with
    | some m => .ok (m, a)
    | none =>
        let m : Client := ⟨a.access_token.getD ""⟩
        .ok (m, { a with fyers_model := some m })

/-! ### Session mutation sequences (for the lifecycle invariant)

The session-manager alphabet of the specification.  `completeAuthorization`
and `invalidate` are the `src/app.py` operations embedded above; the
configuration-token path has no counterpart in `src/app.py` (it exists only
in other iterations of the repository), so it is modelled from the spec. -/

/-- Modelled from the spec: `configureFromToken(token, appId)`
"unconditionally (re)creates the Credential and lazily-constructible
client"; this startup path is not part of `src/app.py`.  The credential is
overwritten and the client slot is reset for lazy reconstruction. -/
def configureFromToken (st : SessionState) (tok : String) : SessionState :=
  { st with accessToken := some tok, client := none }

/-- One session-manager mutation. -/
inductive Mutation where
  | configureFromToken (tok : String)
  | completeAuthorization (auth_code : Option String) (gen : TokenResult)
  | invalidate
deriving DecidableEq, Repr

/-- The session state after one mutation. -/
def applyMutation (st : SessionState) : Mutation → SessionState
  | .configureFromToken tok => configureFromToken st tok
  | .completeAuthorization ac gen => (fyers_auth_callback st ac gen).state
  | .invalidate => invalidate st

/-- The session state after a sequence of mutations. -/
def runMutations (st : SessionState) (ms : List Mutation) : SessionState :=
  ms.foldl applyMutation st

/-- Whether a `completeAuthorization` call succeeds (reaches the redirect):
the auth code must be truthy and the token endpoint must return a response
carrying the `access_token` field. -/
def exchangeSucceeds (ac : Option String) (gen : TokenResult) : Bool :=
  otruthy ac &&
    match gen with
    | .resp (some _) _ => true
    | _ => false

/-- A mutation is well-tokened when any credential it installs is a
non-empty string (real bearer tokens are never empty). -/
def goodMutation : Mutation → Bool
  | .configureFromToken tok => !tok.isEmpty
  | .completeAuthorization _ (.resp (some tok) _) => !tok.isEmpty
  | _ => true

/-- Effect of one mutation on "the most recent state-changing mutation
installed a credential" (`q` is that property before the mutation; a failed
exchange changes nothing and hence inherits `q`). -/
def stepInstall (q : Bool) : Mutation → Bool
  | .configureFromToken _ => true
  | .completeAuthorization ac gen => if exchangeSucceeds ac gen then true else q
  | .invalidate => false

/-- Whether, after the given mutation sequence, the most recent
state-changing mutation installed a credential. -/
def lastInstall (q : Bool) : List Mutation → Bool
  | [] => q
  | m :: ms => lastInstall (stepInstall q m) ms

/-! ### `src/main.py`: the scalping-signal service -/

/-- A downstream history response as consumed by `src/main.py`: the `s`
status field (if present) and the `candles` field (if present), each candle
a row of numbers (`candles[i][4]` is the close, `candles[i][5]` the
volume).  Numbers are embedded as `Rat`; the code only compares them. -/
structure HistoryResponse where
  s : Option String
  candles : Option (List (List Rat))
deriving DecidableEq, Repr

/-- The fields of the dict returned by `analyze_data_with_gemini` that the
analysis computes (the `analysis` sentence interpolates `reason` together
with the float-formatted close and volume; we keep `reason`, the
interpolation being pure presentation; `raw_data` echoes the input). -/
structure GeminiAnalysis where
  signal : String
  reason : String
  raw_data : HistoryResponse
deriving DecidableEq, Repr

/-- Embedding of `analyze_data_with_gemini(market_data)` (src/main.py lines 29-69).
When a non-empty `candles` list is present, reads the last candle's close
(`[4]`) and volume (`[5]`) — `none` models the `IndexError` on a short row —
and picks BUY / SELL / HOLD by the hard-coded thresholds; otherwise returns
the NEUTRAL analysis. -/
def analyze_data_with_gemini (md : HistoryResponse) : Option GeminiAnalysis :=
  match md.candles with
  | some (c :: cs) =>
      let latest := (c :: cs).getLast (by simp)
      match latest.get? 4, latest.get? 5 with
      | some close_price, some volume =>
          if close_price > 500 ∧ volume > 10000000 then
            some ⟨"BUY", "Strong upward momentum and high volume.", md⟩
          else if close_price < 400 ∧ volume > 5000000 then
            some ⟨"SELL", "Downward trend with significant selling pressure.", md⟩
          else
            some ⟨"HOLD", "Market is stable.", md⟩
      | _, _ => none
  | _ => some ⟨"NEUTRAL", "No sufficient data to generate a signal.", md⟩

/-- The JSON body of a `/get-scalping-signal` request: the optional fields
read via `data.get(...)` (src/main.py lines 117-121). -/
structure ScalpingRequest where
  symbol : Option String
  resolution : Option String
  range_from : Option String
  range_to : Option String
  cont_flag : Option String
deriving DecidableEq, Repr

/-- The `history_data_params` dict forwarded to `fyers.history`
(src/main.py lines 134-141). -/
structure HistoryParams where
  symbol : String
  resolution : String
  date_format : String
  range_from : String
  range_to : String
  cont_flag : String
deriving DecidableEq, Repr

/-- The parameter-building prefix of `get_scalping_signal`
(src/main.py lines 116-141): defaults for `symbol`, `resolution` and
`cont_flag`, and — when `range_from` or `range_to` is falsy — the computed
default window ending at the last completed minute (`now` is
`int(time.time())`). -/
def build_history_params (req : ScalpingRequest) (now : Int) : HistoryParams :=
  let symbol := req.symbol.getD "NSE:SBIN-EQ"
  let resolution := req.resolution.getD "5"
  let cont_flag := req.cont_flag.getD "1"
  let fromTo : String × String :=
    if !otruthy req.range_from || !otruthy req.range_to then
      let range_to_epoch := now - (now % 60) - 60
      let range_from_epoch := range_to_epoch - (3600 * 2)
      (toString range_from_epoch, toString range_to_epoch)
    else
      (req.range_from.getD "", req.range_to.getD "")
  { symbol := symbol, resolution := resolution, date_format := "0",
    range_from := fromTo.1, range_to := fromTo.2, cont_flag := cont_flag }

/-- The observable outcome of `/get-scalping-signal`: which branch answered
and with what payload. -/
inductive ScalpingOutcome where
  | notInitialized
  | fetchError (details : HistoryResponse)
  | internalError (msg : String)
  | analysis (g : GeminiAnalysis)
deriving DecidableEq, Repr

/-- HTTP status of each `/get-scalping-signal` outcome. -/
def ScalpingOutcome.status : ScalpingOutcome → Nat
  | .notInitialized => 500
  | .fetchError _ => 500
  | .internalError _ => 500
  | .analysis _ => 200

/-- Embedding of `get_scalping_signal()` (src/main.py lines 111-157).  `client` is the
global `fyers_api_client`, `now` is `int(time.time())`, `ds` the outcome of
`fyers_api_client.history(...)`.  Returns the outcome together with the
params actually forwarded to the history call (`none` when no downstream
call is made).  An `IndexError` inside `analyze_data_with_gemini` lands in
the `except` branch with Python's standard message. -/
def get_scalping_signal (client : Option Client) (req : ScalpingRequest)
    (now : Int) (ds : Except String HistoryResponse) :
    ScalpingOutcome × Option HistoryParams :=
  match client with
  | none => (.notInitialized, none)
  | some _ =>
      let params := build_history_params req now
      match ds with
      | .error e =>
          (.internalError ("An internal server error occurred: " ++ e), some params)
      | .ok hr =>
          if hr.s = some "ok" then
            match analyze_data_with_gemini hr with
            | some g => (.analysis g, some params)
            | none =>
                (.internalError "An internal server error occurred: list index out of range",
                 some params)
          else
            (.fetchError hr, some params)

/-! ### The Gemini analyze endpoint

`src/app.py`'s `/api/gemini/analyze` (lines 521-548) is an inert
placeholder: its Gemini call is commented out and it echoes the request
back.  The six-field analyze handler described by the specification lives
in an iteration of the repository that is not under `src/`, so it is
modelled from the spec below. -/

/-- Embedding of `analyze_with_gemini()` as it stands in src/app.py lines 521-548: 400
when the body is falsy, otherwise a 200 placeholder message echoing the
received data.  No external service is contacted. -/
def analyze_with_gemini_placeholder (body : Option Json) : Nat × Json :=
  match body with
  | some j =>
      if j.truthy then
        (200, .obj [("message",
            .str "Gemini analysis endpoint - placeholder. Integrate Gemini API here."),
          ("received_data", j)])
      else
        (400, .obj [("error", .str "No data provided for Gemini analysis.")])
  | none => (400, .obj [("error", .str "No data provided for Gemini analysis.")])

/-- The six keys the spec requires of a Gemini signal. -/
def REQUIRED_SIGNAL_KEYS : List String :=
  ["symbol", "action", "entry_price", "stop_loss", "target_price", "reasoning"]

/-- Key presence in a JSON object. -/
def hasKey (j : Json) (k : String) : Bool :=
  match j with
  | .obj fs => fs.any (fun p => p.1 == k)
  | _ => false

/-- The text returned by the text-generation collaborator, together with the
result of `json.loads` on it (`parsed = none` means the text is not valid
JSON; the parser itself is an external collaborator). -/
structure UpstreamText where
  raw : String
  parsed : Option Json

/-- Modelled from the spec: the six-field `/api/gemini/analyze` handler,
which is absent from `src/` (src/app.py holds only the inert placeholder
above).  Per spec §4.2 and §8: the body must carry `market_data` and
`analysis_logic`; the collaborator's response must parse as JSON and carry
all six required fields, in which case the handler answers 200 with the
parsed signal; a response that fails to parse or misses a field is surfaced
as a 500 with the raw text attached under `gemini_raw_response`. -/
def analyze_with_gemini_spec (body : Option Json) (upstream : UpstreamText) :
    Nat × Json :=
  match body with
  | some b =>
      if hasKey b "market_data" && hasKey b "analysis_logic" then
        match upstream.parsed with
        | none =>
            (500, .obj [("error", .str "Gemini response was not valid JSON."),
              ("gemini_raw_response", .str upstream.raw)])
        | some j =>
            if REQUIRED_SIGNAL_KEYS.all (fun k => hasKey j k) then
              (200, .obj [("signal", j)])
            else
              (500, .obj [("error", .str "Gemini response missing required fields."),
                ("gemini_raw_response", .str upstream.raw)])
      else
        (400, .obj [("error", .str "Missing market_data or analysis_logic.")])
  | none => (400, .obj [("error", .str "Missing market_data or analysis_logic.")])

/-! ### Helper lemmas about the session getter -/

theorem get_fyers_instance_accessToken (st : SessionState) :
    (get_fyers_instance st).2.accessToken = st.accessToken := by
  unfold get_fyers_instance init_fyers_model
  rcases st with ⟨a, r, c⟩
  rcases c with _ | c <;> rcases h : otruthy a <;> simp [h]

theorem get_fyers_instance_refreshToken (st : SessionState) :
    (get_fyers_instance st).2.refreshToken = st.refreshToken := by
  unfold get_fyers_instance init_fyers_model
  rcases st with ⟨a, r, c⟩
  rcases c with _ | c <;> rcases h : otruthy a <;> simp [h]

theorem get_fyers_instance_idem (st : SessionState) :
    get_fyers_instance (get_fyers_instance st).2 = get_fyers_instance st := by
  unfold get_fyers_instance init_fyers_model
  rcases st with ⟨a, r, c⟩
  rcases c with _ | c
  · rcases a with _ | t
    · simp [otruthy]
    · rcases h : otruthy (some t) with _ | _ <;> simp [h, Option.map]
  · simp

theorem get_fyers_instance_invalidate (st : SessionState) :
    get_fyers_instance (invalidate st) = (none, invalidate st) := rfl

theorem logout_state (st : SessionState) (ds : Except String Json) :
    (logout_fyers st ds).state = invalidate (get_fyers_instance st).2 := by
  unfold logout_fyers
  rcases h : (get_fyers_instance st).1 with _ | c
  · simp [h]
  · rcases ds with e | j <;> simp [h]

/-! ### The session lifecycle invariant -/

/-- The session-state invariant maintained by every well-tokened mutation:
a cleared credential comes with a cleared client, any cached client was
built from the current credential, and the stored credential is never the
empty string. -/
def SInv (st : SessionState) : Prop :=
  (st.accessToken = none → st.client = none) ∧
  (∀ c, st.client = some c → st.accessToken = some c.token) ∧
  (∀ t, st.accessToken = some t → t.isEmpty = false)

theorem SInv_initial : SInv initialState := by
  refine ⟨fun _ => rfl, ?_, ?_⟩ <;> intro x h <;> simp [initialState] at h

theorem applyMutation_SInv (st : SessionState) (m : Mutation)
    (hs : SInv st) (hg : goodMutation m = true) :
    SInv (applyMutation st m) := by
  rcases m with tok | ⟨ac, gen⟩ | _
  · simp only [goodMutation, Bool.not_eq_true'] at hg
    refine ⟨by simp [applyMutation, configureFromToken], ?_, ?_⟩
    · intro c hc; simp [applyMutation, configureFromToken] at hc
    · intro t ht
      simp only [applyMutation, configureFromToken, Option.some.injEq] at ht
      subst ht; exact hg
  · rcases h : otruthy ac with _ | _
    · simpa [applyMutation, fyers_auth_callback, h] using hs
    · rcases gen with e | ⟨tokOpt, rt⟩
      · simpa [applyMutation, fyers_auth_callback, h] using hs
      · rcases tokOpt with _ | tok
        · simpa [applyMutation, fyers_auth_callback, h] using hs
        · simp only [goodMutation, Bool.not_eq_true'] at hg
          have hot : otruthy (some tok) = true := by
            simp [otruthy, hg]
          have hstate : applyMutation st (.completeAuthorization ac (.resp (some tok) rt)) =
              { accessToken := some tok, refreshToken := rt, client := some ⟨tok⟩ } := by
            simp [applyMutation, fyers_auth_callback, h, init_fyers_model, hot, Option.map]
          rw [hstate]
          refine ⟨by simp, ?_, ?_⟩
          · rintro ⟨ct⟩ hc
            simp only [Option.some.injEq, Client.mk.injEq] at hc
            simp [hc]
          · intro t ht
            simp only [Option.some.injEq] at ht
            subst ht
            exact hg
  · exact ⟨fun _ => rfl, by simp [applyMutation, invalidate], by
      intro t ht; simp [applyMutation, invalidate] at ht⟩

theorem applyMutation_isSome (st : SessionState) (m : Mutation) :
    (applyMutation st m).accessToken.isSome = stepInstall st.accessToken.isSome m := by
  rcases m with tok | ⟨ac, gen⟩ | _
  · rfl
  · rcases h : otruthy ac with _ | _
    · simp [applyMutation, fyers_auth_callback, h, stepInstall, exchangeSucceeds]
    · rcases gen with e | ⟨tokOpt, rt⟩
      · simp [applyMutation, fyers_auth_callback, h, stepInstall, exchangeSucceeds]
      · rcases tokOpt with _ | tok
        · simp [applyMutation, fyers_auth_callback, h, stepInstall, exchangeSucceeds]
        · rcases ho : otruthy (some tok) with _ | _ <;>
            simp [applyMutation, fyers_auth_callback, h, stepInstall, exchangeSucceeds,
              init_fyers_model, ho]
  · rfl

theorem runMutations_SInv_isSome (ms : List Mutation) :
    ∀ st : SessionState, SInv st → ms.all goodMutation = true →
      SInv (runMutations st ms) ∧
      (runMutations st ms).accessToken.isSome = lastInstall st.accessToken.isSome ms := by
  induction ms with
  | nil => intro st hs _; exact ⟨hs, rfl⟩
  | cons m ms ih =>
      intro st hs hall
      rw [List.all_cons, Bool.and_eq_true] at hall
      have h1 := applyMutation_SInv st m hs hall.1
      have h2 := applyMutation_isSome st m
      have h3 := ih (applyMutation st m) h1 hall.2
      refine ⟨h3.1, ?_⟩
      show (runMutations (applyMutation st m) ms).accessToken.isSome =
        lastInstall (stepInstall st.accessToken.isSome m) ms
      rw [h3.2, h2]

theorem getter_ne_none_iff (st : SessionState) (hs : SInv st) :
    ((get_fyers_instance st).1 ≠ none) ↔ st.accessToken.isSome = true := by
  rcases st with ⟨a, r, c⟩
  rcases c with _ | c
  · rcases a with _ | t
    · simp [get_fyers_instance, otruthy]
    · have ht : t.isEmpty = false := hs.2.2 t rfl
      simp [get_fyers_instance, otruthy, ht, init_fyers_model, Option.map]
  · have ha : a = some c.token := hs.2.1 c rfl
    subst ha
    simp [get_fyers_instance]

/-! ### The claims -/

/-- C1 (counterexample): a successful authorization-code exchange followed
by a failed one.  The failed exchange leaves the session untouched, so
`_get_fyers_instance` still returns the client installed by the first
exchange — the claim's "returns empty immediately after ... a failed
authorization-code exchange" is false on the code. -/
theorem C1_counterexample :
    (get_fyers_instance (runMutations initialState
      [Mutation.completeAuthorization (some "code1") (TokenResult.resp (some "tok1") none),
       Mutation.completeAuthorization (some "code2") (TokenResult.raise "network error")])).1 =
      some ⟨"tok1"⟩ := rfl

/-- C1 (amended): for every sequence of well-tokened session mutations from
the empty initial state, `_get_fyers_instance` returns a non-empty client
handle iff the most recent state-changing mutation installed a credential —
a failed authorization-code exchange changes nothing and therefore leaves
the query result as it was (rather than emptying it) — and whenever the
stored credential is cleared the client handle is cleared with it. -/
theorem C1_lifecycle (ms : List Mutation) (h : ms.all goodMutation = true) :
    ((get_fyers_instance (runMutations initialState ms)).1 ≠ none ↔
      lastInstall false ms = true) ∧
    ((runMutations initialState ms).accessToken = none →
      (runMutations initialState ms).client = none) := by
  obtain ⟨hinv, hsome⟩ := runMutations_SInv_isSome ms initialState SInv_initial h
  constructor
  · rw [getter_ne_none_iff _ hinv, hsome]
    exact Iff.rfl
  · exact hinv.1

/-- C1 (witness): instantiating the lifecycle theorem on the one-mutation
sequence that installs the token "tokenA". -/
theorem C1_lifecycle_witness :
    ([Mutation.configureFromToken "tokenA"].all goodMutation = true) ∧
    (((get_fyers_instance (runMutations initialState
          [Mutation.configureFromToken "tokenA"])).1 ≠ none ↔
        lastInstall false [Mutation.configureFromToken "tokenA"] = true) ∧
      ((runMutations initialState [Mutation.configureFromToken "tokenA"]).accessToken = none →
        (runMutations initialState [Mutation.configureFromToken "tokenA"]).client = none)) :=
  ⟨by decide, C1_lifecycle _ (by decide)⟩

/-- C2: when a live session's downstream call raises (any exception text
`e`), `get_profile` and `get_history` answer 401 with a JSON error body and
clear the session, so that the next `_get_fyers_instance` query returns
empty. -/
theorem C2_downstream_failure (st : SessionState) (body : Option Json) (e : String)
    (hp : (get_fyers_instance st).1 ≠ none)
    (hv : historyValidate body = .ok true) :
    ((get_profile st (.error e)).status = 401 ∧
      (get_profile st (.error e)).body =
        .obj [("error",
          .str ("Failed to fetch profile (token might be invalid/expired): " ++ e))] ∧
      (get_fyers_instance (get_profile st (.error e)).state).1 = none) ∧
    ((get_history st body (.error e)).status = 401 ∧
      (get_history st body (.error e)).body =
        .obj [("error",
          .str ("Failed to fetch history (token might be invalid/expired): " ++ e))] ∧
      (get_fyers_instance (get_history st body (.error e)).state).1 = none) := by
  rcases hpair : get_fyers_instance st with ⟨api, st1⟩
  rw [hpair] at hp
  rcases api with _ | c
  · exact absurd rfl hp
  · have hprofile : get_profile st (.error e) =
        ⟨401, .obj [("error",
          .str ("Failed to fetch profile (token might be invalid/expired): " ++ e))],
          invalidate st1, true⟩ := by
      unfold get_profile
      rw [hpair]
    have hhistory : get_history st body (.error e) =
        ⟨401, .obj [("error",
          .str ("Failed to fetch history (token might be invalid/expired): " ++ e))],
          invalidate st1, true⟩ := by
      unfold get_history
      rw [hpair, hv]
    rw [hprofile, hhistory]
    exact ⟨⟨rfl, rfl, by rw [get_fyers_instance_invalidate]⟩,
      ⟨rfl, rfl, by rw [get_fyers_instance_invalidate]⟩⟩

/-- C2 (witness): a live single-token session, a well-formed history body
and a downstream exception "boom". -/
theorem C2_downstream_failure_witness :
    ((get_fyers_instance ⟨some "tok", none, none⟩).1 ≠ none ∧
      historyValidate (some (.obj [("symbol", .str "NSE:SBIN-EQ"),
        ("resolution", .str "5"), ("range_from", .str "1700000000"),
        ("range_to", .str "1700003600")])) = .ok true) ∧
    ((get_profile ⟨some "tok", none, none⟩ (.error "boom")).status = 401 ∧
      (get_profile ⟨some "tok", none, none⟩ (.error "boom")).body =
        .obj [("error",
          .str ("Failed to fetch profile (token might be invalid/expired): " ++ "boom"))] ∧
      (get_fyers_instance (get_profile ⟨some "tok", none, none⟩ (.error "boom")).state).1 = none) ∧
    ((get_history ⟨some "tok", none, none⟩ (some (.obj [("symbol", .str "NSE:SBIN-EQ"),
        ("resolution", .str "5"), ("range_from", .str "1700000000"),
        ("range_to", .str "1700003600")])) (.error "boom")).status = 401 ∧
      (get_history ⟨some "tok", none, none⟩ (some (.obj [("symbol", .str "NSE:SBIN-EQ"),
        ("resolution", .str "5"), ("range_from", .str "1700000000"),
        ("range_to", .str "1700003600")])) (.error "boom")).body =
        .obj [("error",
          .str ("Failed to fetch history (token might be invalid/expired): " ++ "boom"))] ∧
      (get_fyers_instance (get_history ⟨some "tok", none, none⟩ (some (.obj [("symbol", .str "NSE:SBIN-EQ"),
        ("resolution", .str "5"), ("range_from", .str "1700000000"),
        ("range_to", .str "1700003600")])) (.error "boom")).state).1 = none) :=
  ⟨⟨by decide, rfl⟩,
    C2_downstream_failure ⟨some "tok", none, none⟩ _ "boom" (by decide) rfl⟩

/-- Which token-endpoint outcomes count as a failed exchange: a raised
exception (network or provider error) or a response missing the
`access_token` field. -/
def exchangeFailed : TokenResult → Bool
  | .raise _ => true
  | .resp none _ => true
  | .resp (some _) _ => false

/-- C3: a failed authorization-code exchange signals an error and leaves
every piece of prior session state exactly as it was: in `src/app.py` the
callback returns its 400/500 error with the globals untouched, and in
`src/fyers_auth.py` `generate_access_token` either propagates the exception
or returns `None`, with the authenticator object unchanged either way. -/
theorem C3_failed_exchange (st : SessionState) (ac : Option String)
    (gen : TokenResult) (a : FyersAuthenticator) (h : exchangeFailed gen = true) :
    ((fyers_auth_callback st ac gen).state = st ∧
      (fyers_auth_callback st ac gen).status ≠ 302) ∧
    (match generate_access_token a gen with
      | .error p => p.2 = a
      | .ok p => p.1 = none ∧ p.2 = a) := by
  rcases gen with e | ⟨tokOpt, rt⟩
  · constructor
    · rcases hac : otruthy ac with _ | _ <;> simp [fyers_auth_callback, hac]
    · simp [generate_access_token]
  · rcases tokOpt with _ | tok
    · constructor
      · rcases hac : otruthy ac with _ | _ <;> simp [fyers_auth_callback, hac]
      · simp [generate_access_token, otruthy]
    · simp [exchangeFailed] at h

/-- C3 (witness): a network failure during the exchange, against a session
holding an older credential and a fresh authenticator. -/
theorem C3_failed_exchange_witness :
    (exchangeFailed (TokenResult.raise "network down") = true) ∧
    (((fyers_auth_callback ⟨some "old", some "r", some ⟨"old"⟩⟩ (some "code")
          (TokenResult.raise "network down")).state = ⟨some "old", some "r", some ⟨"old"⟩⟩ ∧
        (fyers_auth_callback ⟨some "old", some "r", some ⟨"old"⟩⟩ (some "code")
          (TokenResult.raise "network down")).status ≠ 302) ∧
      (match generate_access_token ⟨none, none⟩ (TokenResult.raise "network down") with
        | .error p => p.2 = (⟨none, none⟩ : FyersAuthenticator)
        | .ok p => p.1 = none ∧ p.2 = (⟨none, none⟩ : FyersAuthenticator))) :=
  ⟨by decide, C3_failed_exchange ⟨some "old", some "r", some ⟨"old"⟩⟩ (some "code")
    (TokenResult.raise "network down") ⟨none, none⟩ (by decide)⟩

/-- C4 (counterexample): the claim says the current-client query never
throws and returns empty when no credential is present, but
`FyersAuthenticator.get_fyers_model` — one of the two queries the claim is
about — raises an exception on a fresh authenticator with no token. -/
theorem C4_counterexample :
    get_fyers_model ⟨none, none⟩ =
      .error "Access token not generated. Please run authentication first." := rfl

/-- C4 (amended): the app-level query `_get_fyers_instance` never throws —
it returns empty exactly when no client is cached and no truthy token is
stored, and a repeated query performs no further construction (the state is
already settled after one call); the authenticator-level `get_fyers_model`,
by contrast, raises when no token is present instead of returning empty,
and once a model is cached returns exactly that cached model without
reconstruction (even if the token has changed since). -/
theorem C4_current_client (st : SessionState) (a : FyersAuthenticator) (m : Client)
    (hm : a.fyers_model = some m) (ht : otruthy a.access_token = true) :
    ((get_fyers_instance st).1 = none ↔
      (st.client = none ∧ otruthy st.accessToken = false)) ∧
    (get_fyers_instance (get_fyers_instance st).2 = get_fyers_instance st) ∧
    (∀ b : FyersAuthenticator,
      (∃ e, get_fyers_model b = .error e) ↔ otruthy b.access_token = false) ∧
    (get_fyers_model a = .ok (m, a)) := by
  refine ⟨?_, get_fyers_instance_idem st, ?_, ?_⟩
  · rcases st with ⟨x, r, c⟩
    rcases c with _ | c
    · rcases hx : otruthy x with _ | _
      · simp [get_fyers_instance, hx]
      · rcases x with _ | t
        · simp [otruthy] at hx
        · simp [get_fyers_instance, hx, init_fyers_model, otruthy, Option.map] at *
          simp [hx]
    · simp [get_fyers_instance]
  · intro b
    rcases hb : otruthy b.access_token with _ | _
    · simp [get_fyers_model, hb]
    · rcases hmb : b.fyers_model with _ | mb <;> simp [get_fyers_model, hb, hmb]
  · simp [get_fyers_model, ht, hm]

/-- C4 (witness): a session with a cached client and an authenticator
holding both a token and a cached model. -/
theorem C4_current_client_witness :
    ((⟨some ⟨"t"⟩, some "t"⟩ : FyersAuthenticator).fyers_model = some ⟨"t"⟩ ∧
        otruthy (⟨some ⟨"t"⟩, some "t"⟩ : FyersAuthenticator).access_token = true) ∧
    (((get_fyers_instance ⟨some "t", none, some ⟨"t"⟩⟩).1 = none ↔
        ((⟨some "t", none, some ⟨"t"⟩⟩ : SessionState).client = none ∧
          otruthy (⟨some "t", none, some ⟨"t"⟩⟩ : SessionState).accessToken = false)) ∧
      (get_fyers_instance (get_fyers_instance ⟨some "t", none, some ⟨"t"⟩⟩).2 =
        get_fyers_instance ⟨some "t", none, some ⟨"t"⟩⟩) ∧
      (∀ b : FyersAuthenticator,
        (∃ e, get_fyers_model b = .error e) ↔ otruthy b.access_token = false) ∧
      (get_fyers_model ⟨some ⟨"t"⟩, some "t"⟩ = .ok (⟨"t"⟩, ⟨some ⟨"t"⟩, some "t"⟩))) :=
  ⟨⟨rfl, rfl⟩, C4_current_client ⟨some "t", none, some ⟨"t"⟩⟩ ⟨some ⟨"t"⟩, some "t"⟩ ⟨"t"⟩ rfl rfl⟩

theorem get_fyers_instance_empty (st : SessionState)
    (hc : st.client = none) (ht : otruthy st.accessToken = false) :
    get_fyers_instance st = (none, st) := by
  unfold get_fyers_instance
  rw [hc, ht]
  exact congrArg (fun c => (c, st)) hc

/-- The well-formed history request body of the spec's end-to-end
scenario. -/
def specHistoryBody : Json :=
  .obj [("symbol", .str "NSE:SBIN-EQ"), ("resolution", .str "5"),
    ("range_from", .str "1700000000"), ("range_to", .str "1700003600")]

/-- C5 (counterexample): a well-formed history POST while unauthenticated
does get a 401 with no downstream call, but the JSON body is the code's
"Fyers API not initialized. Please authenticate first." message, not the
claimed exact body with the text "not authenticated". -/
theorem C5_counterexample :
    (get_history initialState (some specHistoryBody) (.ok .null)).status = 401 ∧
    (get_history initialState (some specHistoryBody) (.ok .null)).downstreamCalled = false ∧
    (get_history initialState (some specHistoryBody) (.ok .null)).body ≠
      .obj [("error", .str "not authenticated")] := by
  refine ⟨rfl, rfl, ?_⟩
  show notInitializedBody ≠ _
  simp [notInitializedBody]

/-- C5 (amended): every proxy endpoint invoked while the session is empty
(no token, no client) answers 401 with the JSON body
`error: "Fyers API not initialized. Please authenticate first."`, makes no
downstream call, and leaves the session state untouched — shown for
`get_history` (on any body) and `get_profile`. -/
theorem C5_unauthenticated (st : SessionState) (body : Option Json)
    (ds ds' : Except String Json)
    (hc : st.client = none) (ht : otruthy st.accessToken = false) :
    ((get_history st body ds).status = 401 ∧
      (get_history st body ds).body = notInitializedBody ∧
      (get_history st body ds).downstreamCalled = false ∧
      (get_history st body ds).state = st) ∧
    ((get_profile st ds').status = 401 ∧
      (get_profile st ds').body = notInitializedBody ∧
      (get_profile st ds').downstreamCalled = false ∧
      (get_profile st ds').state = st) := by
  have hq := get_fyers_instance_empty st hc ht
  constructor
  · unfold get_history
    rw [hq]
    exact ⟨rfl, rfl, rfl, rfl⟩
  · unfold get_profile
    rw [hq]
    exact ⟨rfl, rfl, rfl, rfl⟩

/-- C5 (witness): the spec's end-to-end scenario body POSTed to the history
endpoint of a fresh (empty) session. -/
theorem C5_unauthenticated_witness :
    (initialState.client = none ∧ otruthy initialState.accessToken = false) ∧
    (((get_history initialState (some specHistoryBody) (.ok .null)).status = 401 ∧
        (get_history initialState (some specHistoryBody) (.ok .null)).body = notInitializedBody ∧
        (get_history initialState (some specHistoryBody) (.ok .null)).downstreamCalled = false ∧
        (get_history initialState (some specHistoryBody) (.ok .null)).state = initialState) ∧
      ((get_profile initialState (.ok .null)).status = 401 ∧
        (get_profile initialState (.ok .null)).body = notInitializedBody ∧
        (get_profile initialState (.ok .null)).downstreamCalled = false ∧
        (get_profile initialState (.ok .null)).state = initialState)) :=
  ⟨⟨rfl, rfl⟩, C5_unauthenticated initialState (some specHistoryBody) (.ok .null) (.ok .null) rfl rfl⟩

/-- C6: a basket-orders request whose body is not a non-empty JSON array
(in particular the empty array, a non-array value, or a missing body)
answers 400 with the validation message, makes no downstream call, and
leaves the session observably unchanged: the stored credential is the same
and the current-client query gives the same answer (only the lazy cache
inside `_get_fyers_instance` may have been filled in). -/
theorem C6_basket_validation (st : SessionState) (body : Option Json)
    (ds ds' : Except String Json) (c : Client)
    (hlive : (get_fyers_instance st).1 = some c)
    (hbad : ∀ x xs, body ≠ some (.arr (x :: xs))) :
    ((place_basket_orders st body ds).status = 400 ∧
      (place_basket_orders st body ds).body =
        .obj [("error", .str "Request body must be a non-empty list of order objects.")] ∧
      (place_basket_orders st body ds).downstreamCalled = false ∧
      (place_basket_orders st body ds).state.accessToken = st.accessToken ∧
      (get_fyers_instance (place_basket_orders st body ds).state).1 =
        (get_fyers_instance st).1) ∧
    ((modify_basket_orders st body ds').status = 400 ∧
      (modify_basket_orders st body ds').body =
        .obj [("error", .str "Request body must be a non-empty list of order modification objects.")] ∧
      (modify_basket_orders st body ds').downstreamCalled = false ∧
      (modify_basket_orders st body ds').state.accessToken = st.accessToken ∧
      (get_fyers_instance (modify_basket_orders st body ds').state).1 =
        (get_fyers_instance st).1) := by
  rcases hpair : get_fyers_instance st with ⟨api, st1⟩
  have hapi : api = some c := by
    rw [hpair] at hlive
    exact hlive
  subst hapi
  have hatk : st1.accessToken = st.accessToken := by
    have := get_fyers_instance_accessToken st
    rw [hpair] at this
    exact this
  have hget : (get_fyers_instance st1).1 = (some c, st1).1 := by
    have := get_fyers_instance_idem st
    rw [hpair] at this
    rw [this]
  unfold place_basket_orders modify_basket_orders
  rw [hpair]
  rcases body with _ | j
  · exact ⟨⟨rfl, rfl, rfl, hatk, hget⟩, ⟨rfl, rfl, rfl, hatk, hget⟩⟩
  · rcases j with _ | b | q | s | es | fs
    · exact ⟨⟨rfl, rfl, rfl, hatk, hget⟩, ⟨rfl, rfl, rfl, hatk, hget⟩⟩
    · exact ⟨⟨rfl, rfl, rfl, hatk, hget⟩, ⟨rfl, rfl, rfl, hatk, hget⟩⟩
    · exact ⟨⟨rfl, rfl, rfl, hatk, hget⟩, ⟨rfl, rfl, rfl, hatk, hget⟩⟩
    · exact ⟨⟨rfl, rfl, rfl, hatk, hget⟩, ⟨rfl, rfl, rfl, hatk, hget⟩⟩
    · rcases es with _ | ⟨x, xs⟩
      · exact ⟨⟨rfl, rfl, rfl, hatk, hget⟩, ⟨rfl, rfl, rfl, hatk, hget⟩⟩
      · exact absurd rfl (hbad x xs)
    · exact ⟨⟨rfl, rfl, rfl, hatk, hget⟩, ⟨rfl, rfl, rfl, hatk, hget⟩⟩

/-- C6 (witness): the spec's end-to-end scenario — an empty array POSTed to
the basket endpoints of a session holding the token "tok". -/
theorem C6_basket_validation_witness :
    ((get_fyers_instance ⟨some "tok", none, none⟩).1 = some ⟨"tok"⟩ ∧
      (∀ x xs, (some (Json.arr []) : Option Json) ≠ some (.arr (x :: xs)))) ∧
    (((place_basket_orders ⟨some "tok", none, none⟩ (some (.arr [])) (.ok .null)).status = 400 ∧
        (place_basket_orders ⟨some "tok", none, none⟩ (some (.arr [])) (.ok .null)).body =
          .obj [("error", .str "Request body must be a non-empty list of order objects.")] ∧
        (place_basket_orders ⟨some "tok", none, none⟩ (some (.arr [])) (.ok .null)).downstreamCalled = false ∧
        (place_basket_orders ⟨some "tok", none, none⟩ (some (.arr [])) (.ok .null)).state.accessToken =
          (⟨some "tok", none, none⟩ : SessionState).accessToken ∧
        (get_fyers_instance (place_basket_orders ⟨some "tok", none, none⟩ (some (.arr [])) (.ok .null)).state).1 =
          (get_fyers_instance ⟨some "tok", none, none⟩).1) ∧
      ((modify_basket_orders ⟨some "tok", none, none⟩ (some (.arr [])) (.ok .null)).status = 400 ∧
        (modify_basket_orders ⟨some "tok", none, none⟩ (some (.arr [])) (.ok .null)).body =
          .obj [("error", .str "Request body must be a non-empty list of order modification objects.")] ∧
        (modify_basket_orders ⟨some "tok", none, none⟩ (some (.arr [])) (.ok .null)).downstreamCalled = false ∧
        (modify_basket_orders ⟨some "tok", none, none⟩ (some (.arr [])) (.ok .null)).state.accessToken =
          (⟨some "tok", none, none⟩ : SessionState).accessToken ∧
        (get_fyers_instance (modify_basket_orders ⟨some "tok", none, none⟩ (some (.arr [])) (.ok .null)).state).1 =
          (get_fyers_instance ⟨some "tok", none, none⟩).1)) :=
  ⟨⟨rfl, fun x xs h => by simp at h⟩,
    C6_basket_validation ⟨some "tok", none, none⟩ (some (.arr [])) (.ok .null) (.ok .null)
      ⟨"tok"⟩ rfl (fun x xs h => by simp at h)⟩

/-- C7 (spec-modelled): with a body carrying `market_data` and
`analysis_logic`, the analyze handler answers 500 with
`gemini_raw_response` holding the raw upstream text whenever that text is
not valid JSON, and 200 with the six-key signal whenever it parses to a
JSON value carrying all six required keys. -/
theorem C7_analyze_contract (b : Json) (upstream : UpstreamText)
    (hb : hasKey b "market_data" = true) (hl : hasKey b "analysis_logic" = true) :
    (upstream.parsed = none →
      (analyze_with_gemini_spec (some b) upstream).1 = 500 ∧
      (analyze_with_gemini_spec (some b) upstream).2.get? "gemini_raw_response" =
        some (.str upstream.raw)) ∧
    (∀ j, upstream.parsed = some j →
      (∀ k ∈ REQUIRED_SIGNAL_KEYS, hasKey j k = true) →
      (analyze_with_gemini_spec (some b) upstream).1 = 200 ∧
      (analyze_with_gemini_spec (some b) upstream).2.get? "signal" = some j ∧
      ∀ k ∈ REQUIRED_SIGNAL_KEYS, hasKey j k = true) := by
  constructor
  · intro hp
    have h1 : analyze_with_gemini_spec (some b) upstream =
        (500, .obj [("error", .str "Gemini response was not valid JSON."),
          ("gemini_raw_response", .str upstream.raw)]) := by
      simp [analyze_with_gemini_spec, hb, hl, hp]
    rw [h1]
    exact ⟨rfl, rfl⟩
  · intro j hp hall
    have hall' : REQUIRED_SIGNAL_KEYS.all (fun k => hasKey j k) = true :=
      List.all_eq_true.mpr hall
    have h2 : analyze_with_gemini_spec (some b) upstream = (200, .obj [("signal", j)]) := by
      simp [analyze_with_gemini_spec, hb, hl, hp, hall']
    rw [h2]
    exact ⟨rfl, rfl, hall⟩

/-- C7 (witness): a body with both required fields and an upstream reply
"no json here" that fails to parse. -/
theorem C7_analyze_contract_witness :
    (hasKey (.obj [("market_data", .str "d"), ("analysis_logic", .str "l")]) "market_data" = true ∧
      hasKey (.obj [("market_data", .str "d"), ("analysis_logic", .str "l")]) "analysis_logic" = true) ∧
    ((UpstreamText.mk "no json here" none).parsed = none →
      (analyze_with_gemini_spec (some (.obj [("market_data", .str "d"), ("analysis_logic", .str "l")]))
        ⟨"no json here", none⟩).1 = 500 ∧
      (analyze_with_gemini_spec (some (.obj [("market_data", .str "d"), ("analysis_logic", .str "l")]))
        ⟨"no json here", none⟩).2.get? "gemini_raw_response" =
        some (.str (UpstreamText.mk "no json here" none).raw)) ∧
    (∀ j, (UpstreamText.mk "no json here" none).parsed = some j →
      (∀ k ∈ REQUIRED_SIGNAL_KEYS, hasKey j k = true) →
      (analyze_with_gemini_spec (some (.obj [("market_data", .str "d"), ("analysis_logic", .str "l")]))
        ⟨"no json here", none⟩).1 = 200 ∧
      (analyze_with_gemini_spec (some (.obj [("market_data", .str "d"), ("analysis_logic", .str "l")]))
        ⟨"no json here", none⟩).2.get? "signal" = some j ∧
      ∀ k ∈ REQUIRED_SIGNAL_KEYS, hasKey j k = true) :=
  ⟨⟨rfl, rfl⟩, C7_analyze_contract (.obj [("market_data", .str "d"), ("analysis_logic", .str "l")])
    ⟨"no json here", none⟩ rfl rfl⟩

/-- C8: clearing the session is idempotent — the `except`-branch teardown
applied twice equals it applied once (and empties the current-client
query), and running the logout handler a second time leaves the state it
produced the first time unchanged, whatever the two downstream outcomes. -/
theorem C8_invalidate_idempotent (st : SessionState) (ds1 ds2 : Except String Json) :
    invalidate (invalidate st) = invalidate st ∧
    (get_fyers_instance (invalidate st)).1 = none ∧
    (logout_fyers (logout_fyers st ds1).state ds2).state = (logout_fyers st ds1).state ∧
    (get_fyers_instance (logout_fyers (logout_fyers st ds1).state ds2).state).1 =
      (get_fyers_instance (logout_fyers st ds1).state).1 := by
  have hl1 : (logout_fyers st ds1).state = invalidate (get_fyers_instance st).2 :=
    logout_state st ds1
  have hl2 := logout_state (logout_fyers st ds1).state ds2
  refine ⟨rfl, rfl, ?_, ?_⟩
  · rw [hl2, hl1, get_fyers_instance_invalidate]
    rfl
  · rw [hl2, hl1, get_fyers_instance_invalidate, get_fyers_instance_invalidate]

/-- C9: for a downstream history response with status "ok" and a non-empty
candle list whose last row carries a close (index 4) and a volume
(index 5), the scalping endpoint returns the BUY analysis exactly when
close > 500 and volume > 10000000, otherwise the SELL analysis exactly when
close < 400 and volume > 5000000, and otherwise HOLD; a response with "ok"
status but no (or an empty) candle list yields the NEUTRAL analysis. -/
theorem C9_signal_rule (c : Client) (req : ScalpingRequest) (now : Int)
    (hr : HistoryResponse) (cs : List (List Rat)) (last : List Rat)
    (close volume : Rat)
    (hs : hr.s = some "ok")
    (hcand : hr.candles = some cs)
    (hlast : cs.getLast? = some last)
    (h4 : last.get? 4 = some close) (h5 : last.get? 5 = some volume) :
    (((get_scalping_signal (some c) req now (.ok hr)).1 =
        .analysis ⟨"BUY", "Strong upward momentum and high volume.", hr⟩) ↔
      (close > 500 ∧ volume > 10000000)) ∧
    (((get_scalping_signal (some c) req now (.ok hr)).1 =
        .analysis ⟨"SELL", "Downward trend with significant selling pressure.", hr⟩) ↔
      (¬(close > 500 ∧ volume > 10000000) ∧ (close < 400 ∧ volume > 5000000))) ∧
    (((get_scalping_signal (some c) req now (.ok hr)).1 =
        .analysis ⟨"HOLD", "Market is stable.", hr⟩) ↔
      (¬(close > 500 ∧ volume > 10000000) ∧ ¬(close < 400 ∧ volume > 5000000))) ∧
    (∀ hr' : HistoryResponse, hr'.s = some "ok" →
      (hr'.candles = none ∨ hr'.candles = some []) →
      (get_scalping_signal (some c) req now (.ok hr')).1 =
        .analysis ⟨"NEUTRAL", "No sufficient data to generate a signal.", hr'⟩) := by
  have hneutral : ∀ hr' : HistoryResponse, hr'.s = some "ok" →
      (hr'.candles = none ∨ hr'.candles = some []) →
      (get_scalping_signal (some c) req now (.ok hr')).1 =
        .analysis ⟨"NEUTRAL", "No sufficient data to generate a signal.", hr'⟩ := by
    intro hr' hs' hcand'
    have hana : analyze_data_with_gemini hr' =
        some ⟨"NEUTRAL", "No sufficient data to generate a signal.", hr'⟩ := by
      rcases hcand' with h | h <;> simp [analyze_data_with_gemini, h]
    simp [get_scalping_signal, hs', hana]
  rcases cs with _ | ⟨c0, cs'⟩
  · simp at hlast
  · have hgl : ∀ h : (c0 :: cs') ≠ [], (c0 :: cs').getLast h = last := by
      intro h
      have h2 := List.getLast?_eq_getLast (c0 :: cs') h
      rw [hlast] at h2
      exact (Option.some.inj h2).symm
    by_cases hbuy : close > 500 ∧ volume > 10000000
    · have hana : analyze_data_with_gemini hr =
          some ⟨"BUY", "Strong upward momentum and high volume.", hr⟩ := by
        simp only [analyze_data_with_gemini, hcand, hgl, h4, h5, if_pos hbuy]
      have hsig : (get_scalping_signal (some c) req now (.ok hr)).1 =
          .analysis ⟨"BUY", "Strong upward momentum and high volume.", hr⟩ := by
        simp [get_scalping_signal, hs, hana]
      refine ⟨⟨fun _ => hbuy, fun _ => hsig⟩, ?_, ?_, hneutral⟩
      · exact iff_of_false (by simp [hsig]) (fun h => h.1 hbuy)
      · exact iff_of_false (by simp [hsig]) (fun h => h.1 hbuy)
    · by_cases hsell : close < 400 ∧ volume > 5000000
      · have hana : analyze_data_with_gemini hr =
            some ⟨"SELL", "Downward trend with significant selling pressure.", hr⟩ := by
          simp only [analyze_data_with_gemini, hcand, hgl, h4, h5, if_neg hbuy, if_pos hsell]
        have hsig : (get_scalping_signal (some c) req now (.ok hr)).1 =
            .analysis ⟨"SELL", "Downward trend with significant selling pressure.", hr⟩ := by
          simp [get_scalping_signal, hs, hana]
        refine ⟨?_, ⟨fun _ => ⟨hbuy, hsell⟩, fun _ => hsig⟩, ?_, hneutral⟩
        · exact iff_of_false (by simp [hsig]) (fun h => hbuy h)
        · exact iff_of_false (by simp [hsig]) (fun h => h.2 hsell)
      · have hana : analyze_data_with_gemini hr =
            some ⟨"HOLD", "Market is stable.", hr⟩ := by
          simp only [analyze_data_with_gemini, hcand, hgl, h4, h5, if_neg hbuy, if_neg hsell]
        have hsig : (get_scalping_signal (some c) req now (.ok hr)).1 =
            .analysis ⟨"HOLD", "Market is stable.", hr⟩ := by
          simp [get_scalping_signal, hs, hana]
        refine ⟨?_, ?_, ⟨fun _ => ⟨hbuy, hsell⟩, fun _ => hsig⟩, hneutral⟩
        · exact iff_of_false (by simp [hsig]) (fun h => hbuy h)
        · exact iff_of_false (by simp [hsig]) (fun h => hsell h.2)

/-- A concrete last candle: open 10, high 20, low 30, close 501 (index 4),
volume 10000001 (index 5). -/
def c9row : List Rat := [10, 20, 30, 40, 501, 10000001]

/-- C9 (witness): a one-candle "ok" response whose close 501 and volume
10000001 trigger the BUY branch. -/
theorem C9_signal_rule_witness :
    ((⟨some "ok", some [c9row]⟩ : HistoryResponse).s = some "ok" ∧
      (⟨some "ok", some [c9row]⟩ : HistoryResponse).candles = some [c9row] ∧
      [c9row].getLast? = some c9row ∧
      c9row.get? 4 = some 501 ∧ c9row.get? 5 = some 10000001) ∧
    ((((get_scalping_signal (some ⟨"t"⟩) ⟨none, none, none, none, none⟩ 0
          (.ok ⟨some "ok", some [c9row]⟩)).1 =
        .analysis ⟨"BUY", "Strong upward momentum and high volume.",
          ⟨some "ok", some [c9row]⟩⟩) ↔
      ((501 : Rat) > 500 ∧ (10000001 : Rat) > 10000000)) ∧
    ((((get_scalping_signal (some ⟨"t"⟩) ⟨none, none, none, none, none⟩ 0
          (.ok ⟨some "ok", some [c9row]⟩)).1 =
        .analysis ⟨"SELL", "Downward trend with significant selling pressure.",
          ⟨some "ok", some [c9row]⟩⟩) ↔
      (¬((501 : Rat) > 500 ∧ (10000001 : Rat) > 10000000) ∧
        ((501 : Rat) < 400 ∧ (10000001 : Rat) > 5000000))) ∧
    ((((get_scalping_signal (some ⟨"t"⟩) ⟨none, none, none, none, none⟩ 0
          (.ok ⟨some "ok", some [c9row]⟩)).1 =
        .analysis ⟨"HOLD", "Market is stable.", ⟨some "ok", some [c9row]⟩⟩) ↔
      (¬((501 : Rat) > 500 ∧ (10000001 : Rat) > 10000000) ∧
        ¬((501 : Rat) < 400 ∧ (10000001 : Rat) > 5000000))) ∧
    (∀ hr' : HistoryResponse, hr'.s = some "ok" →
      (hr'.candles = none ∨ hr'.candles = some []) →
      (get_scalping_signal (some ⟨"t"⟩) ⟨none, none, none, none, none⟩ 0 (.ok hr')).1 =
        .analysis ⟨"NEUTRAL", "No sufficient data to generate a signal.", hr'⟩)))) :=
  ⟨⟨rfl, rfl, rfl, rfl, rfl⟩,
    C9_signal_rule ⟨"t"⟩ ⟨none, none, none, none, none⟩ 0 ⟨some "ok", some [c9row]⟩
      [c9row] c9row 501 10000001 rfl rfl rfl rfl rfl⟩

/-- C10: a scalping-signal request missing `range_from` or `range_to` (or
carrying them empty) is not rejected — whenever a client is present, the
history parameters are forwarded downstream with `range_to` set to the
current epoch second rounded down to the minute minus 60, and `range_from`
set to `range_to` minus 7200 (the last two hours ending at the last
completed minute). -/
theorem C10_default_range (c : Client) (req : ScalpingRequest) (now : Int)
    (ds : Except String HistoryResponse)
    (h : otruthy req.range_from = false ∨ otruthy req.range_to = false) :
    (get_scalping_signal (some c) req now ds).2 = some (build_history_params req now) ∧
    (build_history_params req now).range_to = toString (now - now % 60 - 60) ∧
    (build_history_params req now).range_from = toString (now - now % 60 - 60 - 7200) := by
  have hcondition : (!otruthy req.range_from || !otruthy req.range_to) = true := by
    rcases h with h | h <;> simp [h]
  refine ⟨?_, ?_, ?_⟩
  · rcases ds with e | hr
    · simp [get_scalping_signal]
    · by_cases hok : hr.s = some "ok"
      · rcases hana : analyze_data_with_gemini hr with _ | g <;>
          simp [get_scalping_signal, hok, hana]
      · simp [get_scalping_signal, hok]
  · simp [build_history_params, hcondition]
  · have harith : now - now % 60 - 60 - 3600 * 2 = now - now % 60 - 60 - 7200 := by
      norm_num
    simp [build_history_params, hcondition, harith]

/-- C10 (witness): a request with no range fields at epoch 1700000000
(1699999940 = 1700000000 - 1700000000 % 60 - 60 since 1700000000 % 60 = 20,
and 1699992740 = 1699999940 - 7200). -/
theorem C10_default_range_witness :
    (otruthy (⟨none, none, none, none, none⟩ : ScalpingRequest).range_from = false ∨
      otruthy (⟨none, none, none, none, none⟩ : ScalpingRequest).range_to = false) ∧
    ((get_scalping_signal (some ⟨"t"⟩) ⟨none, none, none, none, none⟩ 1700000000
        (.ok ⟨some "ok", none⟩)).2 =
      some (build_history_params ⟨none, none, none, none, none⟩ 1700000000) ∧
      (build_history_params ⟨none, none, none, none, none⟩ 1700000000).range_to =
        toString ((1700000000 : Int) - 1700000000 % 60 - 60) ∧
      (build_history_params ⟨none, none, none, none, none⟩ 1700000000).range_from =
        toString ((1700000000 : Int) - 1700000000 % 60 - 60 - 7200)) :=
  ⟨Or.inl rfl, C10_default_range ⟨"t"⟩ ⟨none, none, none, none, none⟩ 1700000000
    (.ok ⟨some "ok", none⟩) (Or.inl rfl)⟩

end FyersProxy
